import Mathlib

/-!
Verification model of `src/assets/product-form.js` (papirladen-v2 theme).

The file shallowly embeds the three UI controllers of the source file:

* `AddToCartComponent` — the add-to-cart button with its timed
  `atc-added` CSS class animation and the optional fly-to-cart effect;
* `ProductFormComponent` — the form submission flow (`handleSubmit`),
  the cart-quantity refetch (`fetchAndUpdateCartQuantity`) and the
  variant-update handler (`onVariantUpdate`);
* `FlyToCart` — the Bézier-path computation (`flyToCartPath`,
  `bezierPoint`).

Stateful DOM code becomes explicit state passing over record types;
`setTimeout`/`clearTimeout` become an explicit list of pending timers
with numeric ids; the asynchronous fetch responses become explicit
inputs (the event loop is sequential, so one `handleSubmit` run is
modelled as the synchronous part followed by its response continuation).
External collaborators named out of scope by the repository (the `morph`
DOM-diff utility, the quantity-selector widget, the cart backend) are
modelled as recorded effects or as explicit inputs.
-/

namespace PF

/-- `ADD_TO_CART_TEXT_ANIMATION_DURATION` of product-form.js (ms). -/
def ADD_TO_CART_TEXT_ANIMATION_DURATION : Nat := 2000

/-- `ERROR_MESSAGE_DISPLAY_DURATION` of product-form.js (ms). -/
def ERROR_MESSAGE_DISPLAY_DURATION : Nat := 10000

/-- `ERROR_BUTTON_REENABLE_DELAY` of product-form.js (ms). -/
def ERROR_BUTTON_REENABLE_DELAY : Nat := 1000

/-- `SUCCESS_MESSAGE_DISPLAY_DURATION` of product-form.js (ms). -/
def SUCCESS_MESSAGE_DISPLAY_DURATION : Nat := 5000

/-- Replace the leftmost occurrence of `pat` in the character list `s`
by `repl`; `s` is returned unchanged when `pat` never occurs. -/
def replaceFirstAux (s pat repl : List Char) : List Char :=
  match s with
  | [] => []
  | c :: rest =>
      if pat.isPrefixOf (c :: rest) then repl ++ (c :: rest).drop pat.length
      else c :: replaceFirstAux rest pat repl

/-- JavaScript `String.prototype.replace` with a string pattern replaces
only the first occurrence of the pattern (an empty pattern matches at
the start). -/
def replaceFirst (s pat repl : String) : String :=
  if pat = "" then repl ++ s
  else ⟨replaceFirstAux s.data pat.data repl.data⟩

/-- Result of `quantitySelector.canAddToCart()` (external quantity
widget): whether the requested quantity may be added, and the maximum
quantity used in the error template. -/
structure ValidationResult where
  canAdd : Bool
  maxQuantity : Nat
  deriving DecidableEq

/-- What a pending `setTimeout` callback of `ProductFormComponent`
does when it fires. -/
inductive TimerAction where
  /-- Hide the error element (`classList.add('hidden')`) and clear the
  live region — the callback of the `#timeout` field. -/
  | hideError
  /-- Re-enable the add-to-cart button container. -/
  | reenableButton
  /-- Clear the live region after a success announcement. -/
  | clearLiveRegion
  deriving DecidableEq

/-- A pending timer: its `setTimeout` id, delay in ms, and callback. -/
structure Timer where
  id : Nat
  delay : Nat
  action : TimerAction
  deriving DecidableEq

/-- The quantity label element (`quantityLabelCartCount` ref), kept
structured: the in-cart count, the unit text after the count, whether
its text matches the `(\d+ ...)` pattern the code looks for, and the
`hidden` class. -/
structure QuantityLabel where
  count : Nat
  unitText : String
  matchesPattern : Bool
  hidden : Bool
  deriving DecidableEq

/-- Mutable DOM/field state of one `ProductFormComponent` instance. -/
structure ProductFormState where
  /-- The `#timeout` private field (id of the last error-hide timer;
  `clearTimeout` does not reset it). -/
  timeoutField : Option Nat
  /-- Timers scheduled and not yet fired or cleared. -/
  activeTimers : List Timer
  /-- Next `setTimeout` id handed out by the environment. -/
  nextTimerId : Nat
  /-- `hidden` class on the `addToCartTextError` element. -/
  errorHidden : Bool
  /-- Content of the error element's text node (`childNodes[2]`, or the
  appended text node); `none` when no text node was written yet. -/
  errorTextNode : Option String
  /-- Whether `aria-live` was removed from the error element. -/
  errorAriaLiveRemoved : Bool
  /-- `textContent` of the `liveRegion` ref. -/
  liveRegionText : String
  /-- `disabled` property of the add-to-cart button. -/
  buttonDisabled : Bool
  /-- `hidden` attribute on the accelerated-checkout container. -/
  acceleratedHidden : Bool
  /-- `value` of the `variantId` hidden input. -/
  variantIdValue : String
  /-- `dataset.productId` of the component. -/
  productId : String
  /-- `data-product-variant-media` attribute of the button container. -/
  productVariantMedia : Option String
  /-- The quantity label element, when present. -/
  quantityLabel : Option QuantityLabel
  deriving DecidableEq

/-- Static configuration of a `ProductFormComponent`: which optional
refs/collaborators exist in its markup, and its dataset options. -/
structure ProductFormConfig where
  /-- The optional `addToCartTextError` ref is present. -/
  hasErrorElement : Bool
  /-- The optional `addToCartButtonContainer` ref (with its button). -/
  hasButtonContainer : Bool
  /-- The optional `acceleratedCheckoutButtonContainer` ref. -/
  hasAcceleratedCheckout : Bool
  /-- A `quantity-selector-component` with `setCartQuantity` exists. -/
  hasQuantityWidget : Bool
  /-- A `quantity-selector-component` with `updateConstraints` exists. -/
  hasQuantitySelector : Bool
  /-- The optional `quantityRules` ref is present. -/
  hasQuantityRulesRef : Bool
  /-- The optional `productFormButtons` ref is present. -/
  hasProductFormButtonsRef : Bool
  /-- `dataset.quantityErrorMax` — the error message template. -/
  quantityErrorMax : Option String
  /-- `dataset.quantityDefault` as a number. -/
  quantityDefault : Nat
  /-- The "added" announcement text (button's added text or the theme
  translation fallback). -/
  addedText : String
  deriving DecidableEq

/-- Parsed JSON body of the cart-add POST response. -/
structure ServerResponse where
  /-- Whether the `status` field is truthy. -/
  statusTruthy : Bool
  message : String
  description : String
  errors : List String
  /-- `sections` — HTML fragments keyed by section id. -/
  sections : List (String × String)
  deriving DecidableEq

/-- Everything one `handleSubmit` run reads from its environment:
the form element, the quantity widget's validation verdict, the form
data, and the outcome of the cart-add POST (`none` models a network or
JSON-parse failure, which the promise chain catches). -/
structure SubmitInput where
  formPresent : Bool
  /-- `some v` when a `quantity-selector-component` exposing
  `canAddToCart` exists and returns `v`; `none` when absent. -/
  validation : Option ValidationResult
  /-- `formData.get('quantity')` as a number; `none` when absent. -/
  formQuantity : Option Nat
  /-- `formData.get('id')`; `none` when absent (falsy). -/
  formId : Option String
  /-- `form.getAttribute('id')`. -/
  formElementId : Option String
  /-- Outcome of `fetch(cart_add_url).then(r => r.json())`. -/
  fetchOutcome : Option ServerResponse
  deriving DecidableEq

/-- An event dispatched on the component during `handleSubmit`. -/
inductive DispatchedEvent where
  /-- `CartErrorEvent(formId, message, description, errors)`. -/
  | cartError (formId message description : String) (errors : List String)
  /-- `CartAddEvent` with its `didError` flag, `itemCount`, and the
  `sections` fragments carried on success. -/
  | cartAdd (didError : Bool) (itemCount : Nat)
      (sections : Option (List (String × String)))
  deriving DecidableEq

/-- Observable effects of one `handleSubmit` run. -/
structure SubmitEffects where
  /-- The POST to `Theme.routes.cart_add_url` was performed. -/
  didFetch : Bool
  events : List DispatchedEvent
  /-- Timers scheduled during this run, in order. -/
  scheduledTimers : List Timer
  /-- The "added" success announcement was written to the live region. -/
  announcedAdded : Bool
  /-- `#fetchAndUpdateCartQuantity` was started (success path). -/
  didRefetchCart : Bool
  /-- Error thrown synchronously out of `handleSubmit`. -/
  thrownSync : Option String
  /-- Error thrown inside the promise chain and caught by `.catch`. -/
  caughtInPromise : Option String
  deriving DecidableEq

/-- No observable effects. -/
def noEffects : SubmitEffects := ⟨false, [], [], false, false, none, none⟩

/-- `if (this.#timeout) clearTimeout(this.#timeout)`: remove the timer
whose id is stored in `#timeout` from the pending timers. The field
itself keeps its stale value, as in JavaScript. -/
def clearPendingTimeout (st : ProductFormState) : ProductFormState :=
  match st.timeoutField with
  | none => st
  | some tid =>
      { st with activeTimers := st.activeTimers.filter fun t => t.id ≠ tid }

/-- `setTimeout(cb, delay)`: append a fresh timer, return it. -/
def scheduleTimer (st : ProductFormState) (delay : Nat) (action : TimerAction) :
    ProductFormState × Timer :=
  let t : Timer := ⟨st.nextTimerId, delay, action⟩
  ({ st with activeTimers := st.activeTimers ++ [t],
             nextTimerId := st.nextTimerId + 1 }, t)

/-- Body of a `ProductFormComponent` timer callback. -/
def applyAction (cfg : ProductFormConfig) (st : ProductFormState) :
    TimerAction → ProductFormState
  | TimerAction.hideError =>
      if cfg.hasErrorElement then
        { st with errorHidden := true, liveRegionText := "" }
      else st
  | TimerAction.reenableButton =>
      if cfg.hasButtonContainer then { st with buttonDisabled := false } else st
  | TimerAction.clearLiveRegion => { st with liveRegionText := "" }

/-- The event loop fires the pending timer with the given id: the timer
is removed from the pending list and its callback body runs. -/
def fireTimer (cfg : ProductFormConfig) (st : ProductFormState) (tid : Nat) :
    ProductFormState :=
  match st.activeTimers.find? (fun t => t.id == tid) with
  | none => st
  | some t =>
      applyAction cfg
        { st with activeTimers := st.activeTimers.filter fun u => u.id ≠ tid }
        t.action

/-- `Number(formData.get('quantity')) || Number(this.dataset.quantityDefault)`:
a missing or zero form quantity falls back to the configured default. -/
def itemCountOf (cfg : ProductFormConfig) (formQuantity : Option Nat) : Nat :=
  match formQuantity with
  | some q => if q = 0 then cfg.quantityDefault else q
  | none => cfg.quantityDefault

/-- The `!validation.canAdd` branch of `handleSubmit` (product-form.js
lines 251–282): disable the button, build the error message from the
`quantityErrorMax` template, show it in the error element's text node
and the live region, schedule the 10 s error-hide timer (stored in
`#timeout`) and the 1 s button re-enable timer. -/
def rejectionBranch (cfg : ProductFormConfig) (st : ProductFormState)
    (v : ValidationResult) : ProductFormState × SubmitEffects :=
  let st := if cfg.hasButtonContainer then { st with buttonDisabled := true } else st
  let errorTemplate := cfg.quantityErrorMax.getD ""
  let errorMessage :=
    replaceFirst errorTemplate "\x7b\x7b maximum \x7d\x7d" (toString v.maxQuantity)
  if cfg.hasErrorElement then
    let st := { st with errorHidden := false,
                        errorTextNode := some errorMessage,
                        liveRegionText := errorMessage }
    let st := clearPendingTimeout st
    let p1 := scheduleTimer st ERROR_MESSAGE_DISPLAY_DURATION TimerAction.hideError
    let st := { p1.1 with timeoutField := some p1.2.id }
    let p2 := scheduleTimer st ERROR_BUTTON_REENABLE_DELAY TimerAction.reenableButton
    (p2.1, { noEffects with scheduledTimers := [p1.2, p2.2] })
  else
    let p2 := scheduleTimer st ERROR_BUTTON_REENABLE_DELAY TimerAction.reenableButton
    (p2.1, { noEffects with scheduledTimers := [p2.2] })

/-- The network part of `handleSubmit` (product-form.js lines 285–388):
POST the form, then run the response continuation. A truthy `status`
dispatches `CartErrorEvent`, shows the message (when the error element
exists), schedules the 10 s error-hide timer and dispatches an
error-tagged `CartAddEvent`; otherwise the success path hides the error,
announces "added", refetches the cart quantity and dispatches a success
`CartAddEvent` carrying the response's `sections`. -/
def fetchBranch (cfg : ProductFormConfig) (st : ProductFormState)
    (inp : SubmitInput) : ProductFormState × SubmitEffects :=
  match inp.fetchOutcome with
  | none =>
      (st, { noEffects with didFetch := true, caughtInPromise := some "network or parse failure" })
  | some resp =>
      if resp.statusTruthy then
        let errEvent := DispatchedEvent.cartError (inp.formElementId.getD "")
          resp.message resp.description resp.errors
        if cfg.hasErrorElement then
          let st := { st with errorHidden := false,
                              errorTextNode := some resp.message,
                              liveRegionText := resp.message }
          let p1 := scheduleTimer st ERROR_MESSAGE_DISPLAY_DURATION TimerAction.hideError
          let st := { p1.1 with timeoutField := some p1.2.id }
          let addEvent := DispatchedEvent.cartAdd true (itemCountOf cfg inp.formQuantity) none
          (st, { noEffects with didFetch := true,
                                events := [errEvent, addEvent],
                                scheduledTimers := [p1.2] })
        else
          (st, { noEffects with didFetch := true, events := [errEvent] })
      else
        let st :=
          if cfg.hasErrorElement then
            { st with errorHidden := true, errorAriaLiveRemoved := true }
          else st
        if (inp.formId.getD "") = "" then
          (st, { noEffects with didFetch := true,
                                caughtInPromise := some "Form ID is required" })
        else
          let p :=
            if cfg.hasButtonContainer then
              let st := { st with liveRegionText := cfg.addedText }
              let p1 := scheduleTimer st SUCCESS_MESSAGE_DISPLAY_DURATION
                TimerAction.clearLiveRegion
              (p1.1, [p1.2], true)
            else (st, [], false)
          let addEvent := DispatchedEvent.cartAdd false
            (itemCountOf cfg inp.formQuantity) (some resp.sections)
          (p.1, { noEffects with didFetch := true,
                                 events := [addEvent],
                                 scheduledTimers := p.2.1,
                                 announcedAdded := p.2.2,
                                 didRefetchCart := true })

/-- `ProductFormComponent.handleSubmit` (product-form.js lines 232–389)
as one sequential run: clear the pending `#timeout` timer, early-return
when the button is disabled, throw when the form element is missing,
consult the quantity widget's validation, and either take the rejection
branch or serialize and POST the form and run the response
continuation. -/
def handleSubmit (cfg : ProductFormConfig) (st : ProductFormState)
    (inp : SubmitInput) : ProductFormState × SubmitEffects :=
  let st := clearPendingTimeout st
  if cfg.hasButtonContainer && st.buttonDisabled then (st, noEffects)
  else if !inp.formPresent then
    (st, { noEffects with thrownSync := some "Product form element missing" })
  else
    match inp.validation with
    | some v =>
        if !v.canAdd then rejectionBranch cfg st v
        else fetchBranch cfg st inp
    | none => fetchBranch cfg st inp

/-- A cart line as returned by the cart read endpoint (`/cart.js`). -/
structure CartItem where
  variant_id : Nat
  quantity : Nat
  deriving DecidableEq

/-- Parsed JSON of the cart read endpoint. -/
structure Cart where
  items : List CartItem
  deriving DecidableEq

/-- Inputs of one `#fetchAndUpdateCartQuantity` run: the value of the
`input[name="id"]` element (`none` when the input is missing) and the
outcome of `fetch('/cart.js')` followed by `.json()` (`none` models a
network or parse failure, caught by the `catch` block). -/
structure RefetchInput where
  variantIdValue : Option String
  cartResult : Option Cart
  deriving DecidableEq

/-- Observable effects of one `#fetchAndUpdateCartQuantity` run. -/
structure RefetchEffects where
  /-- Argument of the `quantitySelector.setCartQuantity` call, when the
  widget exists and the call was made. -/
  setCartQuantityCalled : Option Nat
  /-- The `catch` block ran (`console.error` only). -/
  loggedError : Bool
  deriving DecidableEq

/-- `#updateQuantityLabel` (product-form.js lines 395–406): when the
label exists and its text matches the `\((\d+)\s+(.+)\)` pattern, the
count is rewritten; the `hidden` class is toggled on a zero quantity. -/
def updateQuantityLabel (cartQty : Nat) (st : ProductFormState) :
    ProductFormState :=
  match st.quantityLabel with
  | none => st
  | some ql =>
      let ql := if ql.matchesPattern then { ql with count := cartQty } else ql
      let ql := { ql with hidden := cartQty = 0 }
      { st with quantityLabel := some ql }

/-- `ProductFormComponent.#fetchAndUpdateCartQuantity` (product-form.js
lines 186–214): returns the cart quantity of the item whose
`variant_id` matches the variant-id input, pushing it into the quantity
widget and label; a missing or empty input, or a failed fetch/parse,
yields 0 with no user-facing error. -/
def fetchAndUpdateCartQuantity (cfg : ProductFormConfig)
    (st : ProductFormState) (inp : RefetchInput) :
    ProductFormState × Nat × RefetchEffects :=
  match inp.variantIdValue with
  | none => (st, 0, ⟨none, false⟩)
  | some v =>
      if v = "" then (st, 0, ⟨none, false⟩)
      else
        match inp.cartResult with
        | none => (st, 0, ⟨none, true⟩)
        | some cart =>
            let cartQty :=
              match cart.items.find? (fun it => toString it.variant_id == v) with
              | some it => it.quantity
              | none => 0
            let eff : RefetchEffects :=
              ⟨if cfg.hasQuantityWidget then some cartQty else none, false⟩
            (updateQuantityLabel cartQty st, cartQty, eff)

/-- The variant resource carried by a `VariantUpdateEvent`. -/
structure VariantResource where
  id : String
  available : Bool
  /-- `featured_media?.preview_image?.src`. -/
  featuredMediaSrc : Option String
  deriving DecidableEq

/-- What one `#onVariantUpdate` run reads from its event: the optional
new product, the event's product id, the new variant resource, and
which fragments the replacement HTML contains. -/
structure VariantUpdateInput where
  /-- `event.detail.data.newProduct?.id`. -/
  newProductId : Option String
  /-- `event.detail.data.productId`. -/
  eventProductId : String
  resource : Option VariantResource
  /-- The replacement HTML has an `[ref="addToCartButton"]` element. -/
  htmlHasAddToCartButton : Bool
  /-- The replacement HTML has a quantity input. -/
  htmlHasQuantityInput : Bool
  /-- The replacement HTML has a `.quantity-rules` element. -/
  htmlHasQuantityRules : Bool
  /-- The replacement HTML has a `.product-form-buttons` element. -/
  htmlHasProductFormButtons : Bool
  deriving DecidableEq

/-- Observable effects of one `#onVariantUpdate` run. The `morph` calls
patch external DOM through the opaque DOM-diff collaborator and are
recorded, not modelled. -/
structure VariantEffects where
  morphedAddToCartButton : Bool
  updatedConstraints : Bool
  morphedProductFormButtons : Bool
  /-- `#fetchAndUpdateCartQuantity` was started at the end. -/
  refetchedCart : Bool
  deriving DecidableEq

/-- No observable variant-update effects. -/
def noVariantEffects : VariantEffects := ⟨false, false, false, false⟩

/-- Main body of `#onVariantUpdate` after the product-id filter. -/
def variantUpdateBody (cfg : ProductFormConfig) (st : ProductFormState)
    (inp : VariantUpdateInput) : ProductFormState × VariantEffects :=
  let st := { st with variantIdValue := (inp.resource.map VariantResource.id).getD "" }
  if !cfg.hasButtonContainer && !cfg.hasAcceleratedCheckout then
    (st, noVariantEffects)
  else
    let unavailable : Bool :=
      match inp.resource with
      | none => true
      | some r => !r.available
    let st :=
      if cfg.hasButtonContainer then { st with buttonDisabled := unavailable } else st
    let morphedButton := cfg.hasButtonContainer && inp.htmlHasAddToCartButton
    let st :=
      if cfg.hasAcceleratedCheckout then { st with acceleratedHidden := unavailable }
      else st
    let st :=
      match inp.resource with
      | some r =>
          match r.featuredMediaSrc with
          | some src =>
              if cfg.hasButtonContainer then
                { st with productVariantMedia := some (src ++ "&width=100") }
              else st
          | none => st
      | none => st
    let updatedConstraints := cfg.hasQuantitySelector && inp.htmlHasQuantityInput
    let rulesChanging := cfg.hasQuantityRulesRef != inp.htmlHasQuantityRules
    let morphedButtons :=
      rulesChanging && cfg.hasQuantitySelector &&
        (cfg.hasProductFormButtonsRef && inp.htmlHasProductFormButtons)
    (st, ⟨morphedButton, updatedConstraints, morphedButtons, true⟩)

/-- `ProductFormComponent.#onVariantUpdate` (product-form.js lines
440–544): adopt a new product id or ignore events for other products;
mirror the variant id into the hidden input; enable or disable the
add-to-cart button and show or hide the accelerated-checkout container
from the variant's availability; record the morph/constraint patches;
refetch the cart quantity. -/
def onVariantUpdate (cfg : ProductFormConfig) (st : ProductFormState)
    (inp : VariantUpdateInput) : ProductFormState × VariantEffects :=
  match inp.newProductId with
  | some pid => variantUpdateBody cfg { st with productId := pid } inp
  | none =>
      if inp.eventProductId ≠ st.productId then (st, noVariantEffects)
      else variantUpdateBody cfg st inp

/-- What a pending `AddToCartComponent` timer callback does. -/
inductive AtcAction where
  /-- The `ADD_TO_CART_TEXT_ANIMATION_DURATION` callback: schedules the
  10 ms cleanup timer. -/
  | atcOuter
  /-- The cleanup callback: removes the `atc-added` class. -/
  | atcCleanup
  deriving DecidableEq

/-- A pending `AddToCartComponent` timer with its absolute fire time. -/
structure AtcTimer where
  id : Nat
  fireAt : Nat
  action : AtcAction
  deriving DecidableEq

/-- Mutable state of one `AddToCartComponent` instance. -/
structure AtcState where
  /-- `atc-added` class on the add-to-cart button. -/
  hasAtcClass : Bool
  /-- The `#animationTimeout` private field. -/
  animationTimeout : Option Nat
  /-- The `#cleanupTimeout` private field. -/
  cleanupTimeout : Option Nat
  timers : List AtcTimer
  nextId : Nat
  deriving DecidableEq

/-- `clearTimeout` on an optional stored timer id. -/
def atcClear (st : AtcState) (tid : Option Nat) : AtcState :=
  match tid with
  | none => st
  | some i => { st with timers := st.timers.filter fun t => t.id ≠ i }

/-- `AddToCartComponent.animateAddToCart` (product-form.js lines
120–135), run at absolute time `now`: clear both stored timers, add the
`atc-added` class if absent, and schedule the outer animation timer
`ADD_TO_CART_TEXT_ANIMATION_DURATION` ms out. -/
def animateAddToCart (now : Nat) (st : AtcState) : AtcState :=
  let st := atcClear st st.animationTimeout
  let st := atcClear st st.cleanupTimeout
  let st := if st.hasAtcClass then st else { st with hasAtcClass := true }
  let t : AtcTimer := ⟨st.nextId, now + ADD_TO_CART_TEXT_ANIMATION_DURATION,
    AtcAction.atcOuter⟩
  { st with timers := st.timers ++ [t], nextId := st.nextId + 1,
            animationTimeout := some t.id }

/-- The event loop fires an `AddToCartComponent` timer at time `now`:
the outer callback schedules the 10 ms cleanup timer; the cleanup
callback removes the `atc-added` class. -/
def fireAtcTimer (st : AtcState) (tid : Nat) (now : Nat) : AtcState :=
  match st.timers.find? (fun t => t.id == tid) with
  | none => st
  | some t =>
      let st := { st with timers := st.timers.filter fun u => u.id ≠ tid }
      match t.action with
      | AtcAction.atcOuter =>
          let c : AtcTimer := ⟨st.nextId, now + 10, AtcAction.atcCleanup⟩
          { st with timers := st.timers ++ [c], nextId := st.nextId + 1,
                    cleanupTimeout := some c.id }
      | AtcAction.atcCleanup => { st with hasAtcClass := false }

/-- What one `AddToCartComponent.handleClick` run reads from its
environment. -/
structure ClickInput where
  /-- The enclosing form exists and `checkValidity()` holds. -/
  formValid : Bool
  /-- The quantity widget's `canAddToCart()` verdict, when the widget
  exposing it exists. -/
  validation : Option ValidationResult
  /-- `dataset.addToCartAnimation`. -/
  addToCartAnimation : Option String
  /-- `event.target.closest('.quick-add-modal')` is non-null. -/
  insideQuickAddModal : Bool
  /-- The cart icon, the button ref and the variant-media image all
  exist (`#animateFlyToCart`'s internal guard). -/
  flyPrereqs : Bool
  deriving DecidableEq

/-- Observable effects of one `handleClick` run. -/
structure ClickEffects where
  /-- A `fly-to-cart` element was appended to the document. -/
  flySpawned : Bool
  deriving DecidableEq

/-- The click counts as valid: the form passes `checkValidity` and the
quantity widget (when present) accepts. -/
def clickValid (inp : ClickInput) : Bool :=
  inp.formValid &&
    (match inp.validation with
     | some v => v.canAdd
     | none => true)

/-- `AddToCartComponent.handleClick` (product-form.js lines 66–87), run
at absolute time `now`: no-op on an invalid form or a rejecting
quantity validation; otherwise run the class animation and spawn the
fly-to-cart effect when the animation data-flag is `'true'`, the click
is not inside a quick-add modal, and the effect's own prerequisites
hold. -/
def handleClick (now : Nat) (st : AtcState) (inp : ClickInput) :
    AtcState × ClickEffects :=
  if !inp.formValid then (st, ⟨false⟩)
  else
    let proceed : Bool :=
      match inp.validation with
      | some v => v.canAdd
      | none => true
    if !proceed then (st, ⟨false⟩)
    else
      let st := animateAddToCart now st
      let animationEnabled := inp.addToCartAnimation == some "true"
      let spawned := animationEnabled && !inp.insideQuickAddModal && inp.flyPrereqs
      (st, ⟨spawned⟩)

/-- The quantity widget's validation accepts the submission (or there
is no widget exposing `canAddToCart`, in which case `handleSubmit`
skips the check). -/
def validationAccepts (inp : SubmitInput) : Bool :=
  match inp.validation with
  | some v => v.canAdd
  | none => true

/-- The event is a `CartAddEvent` (of either polarity). -/
def isCartAddEvent : DispatchedEvent → Bool
  | DispatchedEvent.cartAdd _ _ _ => true
  | _ => false

/-- Every pending error-hide timer is the one recorded in the
`#timeout` field. This holds in every reachable state: `#timeout` is
assigned exactly when an error-hide timer is scheduled, and is cleared
at the start of every submission. -/
def HideOK (st : ProductFormState) : Prop :=
  ∀ t ∈ st.activeTimers, t.action = TimerAction.hideError →
    st.timeoutField = some t.id

/-- Number of pending error-hide timers. -/
def countHide (st : ProductFormState) : Nat :=
  (st.activeTimers.filter fun t => t.action == TimerAction.hideError).length

/-- Pending timer ids are below the environment's next fresh id (true
of every reachable state, since `setTimeout` ids are fresh). -/
def IdsFresh (st : ProductFormState) : Prop :=
  ∀ t ∈ st.activeTimers, t.id < st.nextTimerId

/-- Pending `AddToCartComponent` timer ids are below the next fresh id. -/
def AtcIdsFresh (st : AtcState) : Prop :=
  ∀ t ∈ st.timers, t.id < st.nextId

/-- A 2-D point with exact rational coordinates. -/
structure Pt where
  x : ℚ
  y : ℚ
  deriving DecidableEq

/-- A `DOMRect` as read by `getBoundingClientRect`. -/
structure Rect where
  left : ℚ
  top : ℚ
  width : ℚ
  height : ℚ
  deriving DecidableEq

/-- The Bézier path data computed by `FlyToCart.#animate`. -/
structure BezierPath where
  startPoint : Pt
  controlPoint1 : Pt
  controlPoint2 : Pt
  endPoint : Pt
  /-- Animation duration in ms. -/
  duration : ℚ
  deriving DecidableEq

/-- The path set up by `FlyToCart.#animate` (product-form.js lines
570–598): start and end at the source/destination centers offset by
half the flying element's own size, control point 1 is 200 px above the
start, control point 2 is 300 px left of and 100 px above the end, and
the animation lasts 600 ms. -/
def flyToCartPath (rect sourceRect destinationRect : Rect) : BezierPath :=
  let offset : Pt := ⟨rect.width / 2, rect.height / 2⟩
  let startPoint : Pt :=
    ⟨sourceRect.left + sourceRect.width / 2 - offset.x,
     sourceRect.top + sourceRect.height / 2 - offset.y⟩
  let endPoint : Pt :=
    ⟨destinationRect.left + destinationRect.width / 2 - offset.x,
     destinationRect.top + destinationRect.height / 2 - offset.y⟩
  let controlPoint1 : Pt := ⟨startPoint.x, startPoint.y - 200⟩
  let controlPoint2 : Pt := ⟨endPoint.x - 300, endPoint.y - 100⟩
  ⟨startPoint, controlPoint1, controlPoint2, endPoint, 600⟩

/-- `bezierPoint` (product-form.js lines 650–663) over exact rational
arithmetic. -/
def bezierPoint (t : ℚ) (p0 p1 p2 p3 : Pt) : Pt :=
  let cX := 3 * (p1.x - p0.x)
  let bX := 3 * (p2.x - p1.x) - cX
  let aX := p3.x - p0.x - cX - bX
  let cY := 3 * (p1.y - p0.y)
  let bY := 3 * (p2.y - p1.y) - cY
  let aY := p3.y - p0.y - cY - bY
  ⟨aX * t ^ 3 + bX * t ^ 2 + cX * t + p0.x,
   aY * t ^ 3 + bY * t ^ 2 + cY * t + p0.y⟩

/-- A fully equipped component configuration: error element, button
container, accelerated checkout, quantity widget and selector present;
error template `"Only \x7b\x7b maximum \x7d\x7d allowed"`; default
quantity 1. -/
def exampleConfig : ProductFormConfig :=
  ⟨true, true, true, true, true, false, true,
   some "Only \x7b\x7b maximum \x7d\x7d allowed", 1, "Added"⟩

/-- A configuration whose markup has no `addToCartTextError` ref. -/
def exampleConfigNoError : ProductFormConfig :=
  ⟨false, true, true, true, true, false, true, none, 1, "Added"⟩

/-- An idle component state: no pending timers, error hidden, button
enabled, variant 42 selected. -/
def idleState : ProductFormState :=
  ⟨none, [], 1, true, none, false, "", false, false, "42", "p1", none, none⟩

/-- A submission whose quantity validation rejects (maximum 3). -/
def rejectInput : SubmitInput :=
  ⟨true, some ⟨false, 3⟩, some 5, some "42", some "f1", none⟩

/-- A cart-add response with a truthy `status`. -/
def soldOutResponse : ServerResponse := ⟨true, "Sold out", "desc", [], []⟩

/-- A submission that passes validation and receives the truthy-status
response. -/
def errorResponseInput : SubmitInput :=
  ⟨true, some ⟨true, 3⟩, some 1, some "42", some "f1", some soldOutResponse⟩

/-- A submission that passes validation and succeeds. -/
def successInput : SubmitInput :=
  ⟨true, none, some 2, some "42", some "f1",
   some ⟨false, "", "", [], [("s1", "<section>")]⟩⟩

/-- A fresh `AddToCartComponent` state. -/
def atcInitial : AtcState := ⟨false, none, none, [], 0⟩

/-- A click on a valid form with an accepting quantity widget. -/
def validClick : ClickInput := ⟨true, some ⟨true, 99⟩, none, false, false⟩

/-- A two-line cart. -/
def exampleCart : Cart := ⟨[⟨42, 7⟩, ⟨43, 2⟩]⟩

/-- A variant-update event to an unavailable variant of product p1. -/
def unavailableVariantInput : VariantUpdateInput :=
  ⟨none, "p1", some ⟨"v2", false, none⟩, true, true, true, true⟩

/-- A variant-update event to an available variant of product p1. -/
def availableVariantInput : VariantUpdateInput :=
  ⟨none, "p1", some ⟨"v2", true, some "img.jpg"⟩, true, true, true, true⟩

/-! ## Helper lemmas -/

/-- `clearTimeout` leaves the `#timeout` field itself untouched. -/
@[simp]
theorem clear_timeoutField (st : ProductFormState) :
    (clearPendingTimeout st).timeoutField = st.timeoutField := by
  cases h : st.timeoutField <;> simp [clearPendingTimeout, h]

/-- `clearTimeout` does not touch the button. -/
@[simp]
theorem clear_buttonDisabled (st : ProductFormState) :
    (clearPendingTimeout st).buttonDisabled = st.buttonDisabled := by
  cases h : st.timeoutField <;> simp [clearPendingTimeout, h]

/-- `clearTimeout` does not consume timer ids. -/
@[simp]
theorem clear_nextTimerId (st : ProductFormState) :
    (clearPendingTimeout st).nextTimerId = st.nextTimerId := by
  cases h : st.timeoutField <;> simp [clearPendingTimeout, h]

/-- `clearTimeout` does not touch the error element. -/
@[simp]
theorem clear_errorHidden (st : ProductFormState) :
    (clearPendingTimeout st).errorHidden = st.errorHidden := by
  cases h : st.timeoutField <;> simp [clearPendingTimeout, h]

/-- `clearTimeout` does not touch the error text node. -/
@[simp]
theorem clear_errorTextNode (st : ProductFormState) :
    (clearPendingTimeout st).errorTextNode = st.errorTextNode := by
  cases h : st.timeoutField <;> simp [clearPendingTimeout, h]

/-- `clearTimeout` does not touch the live region. -/
@[simp]
theorem clear_liveRegionText (st : ProductFormState) :
    (clearPendingTimeout st).liveRegionText = st.liveRegionText := by
  cases h : st.timeoutField <;> simp [clearPendingTimeout, h]

/-- A timer still pending after `clearTimeout` was pending before. -/
theorem mem_clear_activeTimers {st : ProductFormState} {t : Timer}
    (h : t ∈ (clearPendingTimeout st).activeTimers) : t ∈ st.activeTimers := by
  cases h' : st.timeoutField with
  | none => simpa [clearPendingTimeout, h'] using h
  | some tid =>
      simp [clearPendingTimeout, h', List.mem_filter] at h
      exact h.1

/-- Scanning for an element behind a prefix that never matches. -/
theorem find_append_right {α} {p : α → Bool} {l1 l2 : List α}
    (h : ∀ u ∈ l1, p u = false) : (l1 ++ l2).find? p = l2.find? p := by
  rw [List.find?_append]
  have h1 : l1.find? p = none := List.find?_eq_none.mpr (by intro x hx; simp [h x hx])
  simp [h1]

/-- When the `#timeout` invariant holds, clearing it removes every
pending error-hide timer. -/
theorem clear_no_hide {st : ProductFormState} (h : HideOK st) :
    ∀ t ∈ (clearPendingTimeout st).activeTimers,
      t.action ≠ TimerAction.hideError := by
  intro t ht hact
  cases h' : st.timeoutField with
  | none =>
      have := h t (mem_clear_activeTimers ht) hact
      rw [h'] at this
      exact Option.noConfusion this
  | some tid =>
      have hmem := h t (mem_clear_activeTimers ht) hact
      rw [h'] at hmem
      have htid : tid = t.id := Option.some.inj hmem
      simp [clearPendingTimeout, h', List.mem_filter] at ht
      exact ht.2 htid.symm

/-! ## C9 and C10: the fly-to-cart Bézier path -/

/-- C9: `FlyToCart.#animate` starts the path at the source element's
center and ends it at the destination element's center, each offset by
half the flying element's own size; the first control point is 200 px
above the start, the second is 300 px left of and 100 px above the end,
and the animation duration is 600 ms. -/
theorem c9_flyToCart_path (rect sourceRect destinationRect : Rect) :
    (flyToCartPath rect sourceRect destinationRect).startPoint.x =
      sourceRect.left + sourceRect.width / 2 - rect.width / 2 ∧
    (flyToCartPath rect sourceRect destinationRect).startPoint.y =
      sourceRect.top + sourceRect.height / 2 - rect.height / 2 ∧
    (flyToCartPath rect sourceRect destinationRect).endPoint.x =
      destinationRect.left + destinationRect.width / 2 - rect.width / 2 ∧
    (flyToCartPath rect sourceRect destinationRect).endPoint.y =
      destinationRect.top + destinationRect.height / 2 - rect.height / 2 ∧
    (flyToCartPath rect sourceRect destinationRect).controlPoint1.x =
      (flyToCartPath rect sourceRect destinationRect).startPoint.x ∧
    (flyToCartPath rect sourceRect destinationRect).controlPoint1.y =
      (flyToCartPath rect sourceRect destinationRect).startPoint.y - 200 ∧
    (flyToCartPath rect sourceRect destinationRect).controlPoint2.x =
      (flyToCartPath rect sourceRect destinationRect).endPoint.x - 300 ∧
    (flyToCartPath rect sourceRect destinationRect).controlPoint2.y =
      (flyToCartPath rect sourceRect destinationRect).endPoint.y - 100 ∧
    (flyToCartPath rect sourceRect destinationRect).duration = 600 :=
  ⟨rfl, rfl, rfl, rfl, rfl, rfl, rfl, rfl, rfl⟩

/-- C10: over exact rational arithmetic, `bezierPoint` computes the
standard cubic Bézier Bernstein form in each coordinate; in particular
it starts at `p0` and ends at `p3`. -/
theorem c10_bezierPoint_is_bernstein (t : ℚ) (p0 p1 p2 p3 : Pt) :
    bezierPoint t p0 p1 p2 p3 =
      ⟨(1 - t) ^ 3 * p0.x + 3 * (1 - t) ^ 2 * t * p1.x +
         3 * (1 - t) * t ^ 2 * p2.x + t ^ 3 * p3.x,
       (1 - t) ^ 3 * p0.y + 3 * (1 - t) ^ 2 * t * p1.y +
         3 * (1 - t) * t ^ 2 * p2.y + t ^ 3 * p3.y⟩ ∧
    bezierPoint 0 p0 p1 p2 p3 = p0 ∧
    bezierPoint 1 p0 p1 p2 p3 = p3 := by
  rcases p0 with ⟨x0, y0⟩
  rcases p1 with ⟨x1, y1⟩
  rcases p2 with ⟨x2, y2⟩
  rcases p3 with ⟨x3, y3⟩
  refine ⟨?_, ?_, ?_⟩
  · simp only [bezierPoint, Pt.mk.injEq]
    refine ⟨by ring, by ring⟩
  · simp only [bezierPoint, Pt.mk.injEq]
    refine ⟨by ring, by ring⟩
  · simp only [bezierPoint, Pt.mk.injEq]
    refine ⟨by ring, by ring⟩

/-! ## C8: the cart-quantity refetch -/

/-- C8: `#fetchAndUpdateCartQuantity` never surfaces an error to the
user (the error element and live region are untouched in every case),
returns 0 when the variant-id input is missing or empty and when the
fetch or parse fails (logging only), and on success returns the
quantity of the cart item whose `variant_id` matches the input, or 0
when no item matches. -/
theorem c8_cart_refetch_swallows_failures (cfg : ProductFormConfig)
    (st : ProductFormState) (inp : RefetchInput) :
    ((fetchAndUpdateCartQuantity cfg st inp).1.errorHidden = st.errorHidden ∧
     (fetchAndUpdateCartQuantity cfg st inp).1.errorTextNode = st.errorTextNode ∧
     (fetchAndUpdateCartQuantity cfg st inp).1.liveRegionText = st.liveRegionText) ∧
    (inp.variantIdValue = none →
      (fetchAndUpdateCartQuantity cfg st inp).2.1 = 0 ∧
      (fetchAndUpdateCartQuantity cfg st inp).1 = st) ∧
    (inp.variantIdValue = some "" →
      (fetchAndUpdateCartQuantity cfg st inp).2.1 = 0 ∧
      (fetchAndUpdateCartQuantity cfg st inp).1 = st) ∧
    (∀ v, inp.variantIdValue = some v → v ≠ "" → inp.cartResult = none →
      (fetchAndUpdateCartQuantity cfg st inp).2.1 = 0 ∧
      (fetchAndUpdateCartQuantity cfg st inp).1 = st ∧
      (fetchAndUpdateCartQuantity cfg st inp).2.2.loggedError = true) ∧
    (∀ v cart, inp.variantIdValue = some v → v ≠ "" → inp.cartResult = some cart →
      ((∀ item ∈ cart.items, toString item.variant_id ≠ v) →
        (fetchAndUpdateCartQuantity cfg st inp).2.1 = 0) ∧
      (∀ item, cart.items.find? (fun it => toString it.variant_id == v) = some item →
        (fetchAndUpdateCartQuantity cfg st inp).2.1 = item.quantity)) := by
  refine ⟨?_, ?_, ?_, ?_, ?_⟩
  · rcases hvid : inp.variantIdValue with _ | v
    · simp [fetchAndUpdateCartQuantity, hvid]
    · by_cases hv : v = ""
      · subst hv
        simp [fetchAndUpdateCartQuantity, hvid]
      · rcases hres : inp.cartResult with _ | cart
        · simp [fetchAndUpdateCartQuantity, hvid, hv, hres]
        · cases hql : st.quantityLabel <;>
            simp [fetchAndUpdateCartQuantity, hvid, hv, hres,
              updateQuantityLabel, hql]
  · intro h
    simp [fetchAndUpdateCartQuantity, h]
  · intro h
    simp [fetchAndUpdateCartQuantity, h]
  · intro v hvid hv hres
    simp [fetchAndUpdateCartQuantity, hvid, hv, hres]
  · intro v cart hvid hv hres
    constructor
    · intro hnone
      have hfind : cart.items.find? (fun it => toString it.variant_id == v) = none :=
        List.find?_eq_none.mpr (by
          intro x hx
          simpa using hnone x hx)
      simp [fetchAndUpdateCartQuantity, hvid, hv, hres, hfind]
    · intro item hitem
      simp [fetchAndUpdateCartQuantity, hvid, hv, hres, hitem]

/-! ## C6: variant availability toggles both controls -/

/-- The control updates of `variantUpdateBody`: when both controls
exist, both follow the new variant's availability. -/
theorem variantUpdateBody_controls (cfg : ProductFormConfig)
    (st : ProductFormState) (inp : VariantUpdateInput)
    (hbc : cfg.hasButtonContainer = true)
    (hac : cfg.hasAcceleratedCheckout = true) :
    (variantUpdateBody cfg st inp).1.buttonDisabled =
      (match inp.resource with
       | none => true
       | some r => !r.available) ∧
    (variantUpdateBody cfg st inp).1.acceleratedHidden =
      (match inp.resource with
       | none => true
       | some r => !r.available) := by
  rcases hres : inp.resource with _ | ⟨rid, ravail, rmedia⟩
  · simp [variantUpdateBody, hbc, hac, hres]
  · rcases rmedia with _ | src <;>
      simp [variantUpdateBody, hbc, hac, hres]

/-- C6: for every variant-update event that applies to this component,
an unavailable (or null) variant disables the add-to-cart control and
hides the accelerated-checkout control, and an available variant
re-enables both. -/
theorem c6_variant_availability_toggles_controls (cfg : ProductFormConfig)
    (st : ProductFormState) (inp : VariantUpdateInput)
    (happ : inp.newProductId.isSome = true ∨ inp.eventProductId = st.productId)
    (hbc : cfg.hasButtonContainer = true)
    (hac : cfg.hasAcceleratedCheckout = true) :
    ((inp.resource = none ∨ (∃ r, inp.resource = some r ∧ r.available = false)) →
      (onVariantUpdate cfg st inp).1.buttonDisabled = true ∧
      (onVariantUpdate cfg st inp).1.acceleratedHidden = true) ∧
    (∀ r, inp.resource = some r → r.available = true →
      (onVariantUpdate cfg st inp).1.buttonDisabled = false ∧
      (onVariantUpdate cfg st inp).1.acceleratedHidden = false) := by
  have hbody : ∀ st', onVariantUpdate cfg st inp = variantUpdateBody cfg st' inp →
      ((inp.resource = none ∨ (∃ r, inp.resource = some r ∧ r.available = false)) →
        (onVariantUpdate cfg st inp).1.buttonDisabled = true ∧
        (onVariantUpdate cfg st inp).1.acceleratedHidden = true) ∧
      (∀ r, inp.resource = some r → r.available = true →
        (onVariantUpdate cfg st inp).1.buttonDisabled = false ∧
        (onVariantUpdate cfg st inp).1.acceleratedHidden = false) := by
    intro st' heq
    have hc := variantUpdateBody_controls cfg st' inp hbc hac
    rw [heq]
    constructor
    · rintro (hnone | ⟨r, hr, hav⟩)
      · constructor <;> simp [hc.1, hc.2, hnone]
      · constructor <;> simp [hc.1, hc.2, hr, hav]
    · intro r hr hav
      constructor <;> simp [hc.1, hc.2, hr, hav]
  rcases hnp : inp.newProductId with _ | pid
  · rcases happ with habs | hpid
    · rw [hnp] at habs
      simp at habs
    · exact hbody st (by simp [onVariantUpdate, hnp, hpid])
  · exact hbody { st with productId := pid } (by simp [onVariantUpdate, hnp])

/-- Witness for C6 at a concrete unavailable-variant event. -/
theorem c6_variant_availability_witness :
    (unavailableVariantInput.newProductId.isSome = true ∨
      unavailableVariantInput.eventProductId = idleState.productId) ∧
    exampleConfig.hasButtonContainer = true ∧
    exampleConfig.hasAcceleratedCheckout = true ∧
    (onVariantUpdate exampleConfig idleState unavailableVariantInput).1.buttonDisabled = true ∧
    (onVariantUpdate exampleConfig idleState unavailableVariantInput).1.acceleratedHidden = true := by
  have h := (c6_variant_availability_toggles_controls exampleConfig idleState
    unavailableVariantInput (Or.inr rfl) rfl rfl).1
    (Or.inr ⟨⟨"v2", false, none⟩, rfl, rfl⟩)
  exact ⟨Or.inr rfl, rfl, rfl, h.1, h.2⟩

/-- Witness for C8 at concrete failing and succeeding refetches. -/
theorem c8_cart_refetch_witness :
    (fetchAndUpdateCartQuantity exampleConfig idleState ⟨some "42", none⟩).2.1 = 0 ∧
    (fetchAndUpdateCartQuantity exampleConfig idleState ⟨some "42", none⟩).2.2.loggedError = true ∧
    (fetchAndUpdateCartQuantity exampleConfig idleState ⟨some "42", some exampleCart⟩).2.1 = 7 := by
  obtain ⟨-, -, -, h4, -⟩ :=
    c8_cart_refetch_swallows_failures exampleConfig idleState ⟨some "42", none⟩
  obtain ⟨-, -, -, -, h5⟩ :=
    c8_cart_refetch_swallows_failures exampleConfig idleState ⟨some "42", some exampleCart⟩
  have hfail := h4 "42" rfl (by decide) rfl
  have hok := (h5 "42" exampleCart rfl (by decide) rfl).2 ⟨42, 7⟩ (by decide)
  exact ⟨hfail.1, hfail.2.2, hok⟩

/-! ## Dispatch lemmas for `handleSubmit` -/

/-- When the button is enabled, the form exists and validation rejects,
`handleSubmit` runs the rejection branch on the cleared state. -/
theorem handleSubmit_eq_rejection (cfg : ProductFormConfig)
    (st : ProductFormState) (inp : SubmitInput) (v : ValidationResult)
    (hbtn : (cfg.hasButtonContainer && st.buttonDisabled) = false)
    (hform : inp.formPresent = true)
    (hval : inp.validation = some v)
    (hrej : v.canAdd = false) :
    handleSubmit cfg st inp = rejectionBranch cfg (clearPendingTimeout st) v := by
  unfold handleSubmit
  simp [clear_buttonDisabled, hbtn, hform, hval, hrej]

/-- When the button is enabled, the form exists and validation accepts
(or no validating widget exists), `handleSubmit` runs the network branch
on the cleared state. -/
theorem handleSubmit_eq_fetch (cfg : ProductFormConfig)
    (st : ProductFormState) (inp : SubmitInput)
    (hbtn : (cfg.hasButtonContainer && st.buttonDisabled) = false)
    (hform : inp.formPresent = true)
    (hacc : validationAccepts inp = true) :
    handleSubmit cfg st inp = fetchBranch cfg (clearPendingTimeout st) inp := by
  unfold handleSubmit
  rcases hval : inp.validation with _ | v
  · simp [clear_buttonDisabled, hbtn, hform, hval]
  · have hca : v.canAdd = true := by simpa [validationAccepts, hval] using hacc
    simp [clear_buttonDisabled, hbtn, hform, hval, hca]

/-! ## C1: a rejected submission never reaches the network -/

/-- C1: when the quantity widget's validation rejects the submission,
`handleSubmit` performs no cart-add POST, and (the error element being
present) writes the template-substituted error message into the error
element's text node and the live region, unhiding the error element. -/
theorem c1_rejected_submission_no_fetch (cfg : ProductFormConfig)
    (st : ProductFormState) (inp : SubmitInput) (v : ValidationResult)
    (hbtn : (cfg.hasButtonContainer && st.buttonDisabled) = false)
    (hform : inp.formPresent = true)
    (hval : inp.validation = some v)
    (hrej : v.canAdd = false)
    (herr : cfg.hasErrorElement = true) :
    (handleSubmit cfg st inp).2.didFetch = false ∧
    (handleSubmit cfg st inp).1.errorTextNode =
      some (replaceFirst (cfg.quantityErrorMax.getD "")
        "\x7b\x7b maximum \x7d\x7d" (toString v.maxQuantity)) ∧
    (handleSubmit cfg st inp).1.liveRegionText =
      replaceFirst (cfg.quantityErrorMax.getD "")
        "\x7b\x7b maximum \x7d\x7d" (toString v.maxQuantity) ∧
    (handleSubmit cfg st inp).1.errorHidden = false := by
  rw [handleSubmit_eq_rejection cfg st inp v hbtn hform hval hrej]
  refine ⟨?_, ?_, ?_, ?_⟩ <;>
    cases hbc : cfg.hasButtonContainer <;>
      simp [rejectionBranch, scheduleTimer, herr, hbc, noEffects]

/-- Witness for C1 at a concrete rejected submission. -/
theorem c1_rejected_submission_witness :
    (exampleConfig.hasButtonContainer && idleState.buttonDisabled) = false ∧
    rejectInput.formPresent = true ∧
    rejectInput.validation = some ⟨false, 3⟩ ∧
    exampleConfig.hasErrorElement = true ∧
    (handleSubmit exampleConfig idleState rejectInput).2.didFetch = false ∧
    (handleSubmit exampleConfig idleState rejectInput).1.errorTextNode =
      some "Only 3 allowed" ∧
    (handleSubmit exampleConfig idleState rejectInput).1.liveRegionText =
      "Only 3 allowed" := by
  have h := c1_rejected_submission_no_fetch exampleConfig idleState rejectInput
    ⟨false, 3⟩ rfl rfl rfl rfl rfl
  refine ⟨rfl, rfl, rfl, rfl, h.1, ?_, ?_⟩
  · rw [h.2.1]
    decide
  · rw [h.2.2.1]
    decide

/-! ## C5: a successful response leaves the error hidden -/

/-- C5: on the success path (parsed response without a truthy `status`)
the error element carries the `hidden` class at the end of the branch. -/
theorem c5_success_leaves_error_hidden (cfg : ProductFormConfig)
    (st : ProductFormState) (inp : SubmitInput) (resp : ServerResponse)
    (hbtn : (cfg.hasButtonContainer && st.buttonDisabled) = false)
    (hform : inp.formPresent = true)
    (hacc : validationAccepts inp = true)
    (hfetch : inp.fetchOutcome = some resp)
    (hstatus : resp.statusTruthy = false)
    (herr : cfg.hasErrorElement = true) :
    (handleSubmit cfg st inp).1.errorHidden = true := by
  rw [handleSubmit_eq_fetch cfg st inp hbtn hform hacc]
  by_cases hid : (inp.formId.getD "") = "" <;>
    cases hbc : cfg.hasButtonContainer <;>
      simp [fetchBranch, hfetch, hstatus, herr, hid, hbc, scheduleTimer]

/-- Witness for C5 at a concrete successful submission. -/
theorem c5_success_witness :
    (exampleConfig.hasButtonContainer && idleState.buttonDisabled) = false ∧
    successInput.formPresent = true ∧
    validationAccepts successInput = true ∧
    successInput.fetchOutcome = some ⟨false, "", "", [], [("s1", "<section>")]⟩ ∧
    exampleConfig.hasErrorElement = true ∧
    (handleSubmit exampleConfig idleState successInput).1.errorHidden = true :=
  ⟨rfl, rfl, rfl, rfl, rfl,
   c5_success_leaves_error_hidden exampleConfig idleState successInput
     ⟨false, "", "", [], [("s1", "<section>")]⟩ rfl rfl rfl rfl rfl rfl⟩

/-! ## C2: a truthy-status response never takes the success path -/

/-- C2 (amended): a parsed response with a truthy `status` never runs
the success path — no "added" announcement, no cart refetch — and every
`CartAddEvent` it dispatches is tagged `didError = true`; when the error
text element is present, such an event is always dispatched and its
`itemCount` is the submitted quantity, or the configured default when
the form quantity is absent or zero. (Without the error element the
handler returns before the `CartAddEvent` dispatch.) -/
theorem c2_error_status_blocks_success (cfg : ProductFormConfig)
    (st : ProductFormState) (inp : SubmitInput) (resp : ServerResponse)
    (hbtn : (cfg.hasButtonContainer && st.buttonDisabled) = false)
    (hform : inp.formPresent = true)
    (hacc : validationAccepts inp = true)
    (hfetch : inp.fetchOutcome = some resp)
    (hstatus : resp.statusTruthy = true) :
    (handleSubmit cfg st inp).2.announcedAdded = false ∧
    (handleSubmit cfg st inp).2.didRefetchCart = false ∧
    (∀ d c s, DispatchedEvent.cartAdd d c s ∈ (handleSubmit cfg st inp).2.events →
      d = true) ∧
    (cfg.hasErrorElement = true →
      ∃ c, DispatchedEvent.cartAdd true c none ∈ (handleSubmit cfg st inp).2.events ∧
        (∀ q, inp.formQuantity = some q → q ≠ 0 → c = q) ∧
        ((inp.formQuantity = none ∨ inp.formQuantity = some 0) →
          c = cfg.quantityDefault)) := by
  rw [handleSubmit_eq_fetch cfg st inp hbtn hform hacc]
  have hcount : (∀ q, inp.formQuantity = some q → q ≠ 0 →
      itemCountOf cfg inp.formQuantity = q) ∧
      ((inp.formQuantity = none ∨ inp.formQuantity = some 0) →
        itemCountOf cfg inp.formQuantity = cfg.quantityDefault) := by
    constructor
    · intro q hq hq0
      simp [itemCountOf, hq, hq0]
    · rintro (hq | hq) <;> simp [itemCountOf, hq]
  cases herr : cfg.hasErrorElement
  · refine ⟨by simp [fetchBranch, hfetch, hstatus, herr, noEffects],
      by simp [fetchBranch, hfetch, hstatus, herr, noEffects], ?_, ?_⟩
    · intro d c s hmem
      simp [fetchBranch, hfetch, hstatus, herr, noEffects] at hmem
    · intro h
      exact absurd h (by simp [herr])
  · refine ⟨by simp [fetchBranch, hfetch, hstatus, herr, noEffects, scheduleTimer],
      by simp [fetchBranch, hfetch, hstatus, herr, noEffects, scheduleTimer], ?_, ?_⟩
    · intro d c s hmem
      simp [fetchBranch, hfetch, hstatus, herr, noEffects, scheduleTimer] at hmem
      exact hmem.1
    · intro _
      refine ⟨itemCountOf cfg inp.formQuantity, ?_, hcount.1, hcount.2⟩
      simp [fetchBranch, hfetch, hstatus, herr, noEffects, scheduleTimer]

/-- Witness for C2 at a concrete truthy-status response. -/
theorem c2_error_status_witness :
    (exampleConfig.hasButtonContainer && idleState.buttonDisabled) = false ∧
    errorResponseInput.fetchOutcome = some soldOutResponse ∧
    soldOutResponse.statusTruthy = true ∧
    (handleSubmit exampleConfig idleState errorResponseInput).2.didRefetchCart = false ∧
    (∃ c, DispatchedEvent.cartAdd true c none ∈
        (handleSubmit exampleConfig idleState errorResponseInput).2.events ∧
      (∀ q, errorResponseInput.formQuantity = some q → q ≠ 0 → c = q) ∧
      ((errorResponseInput.formQuantity = none ∨
        errorResponseInput.formQuantity = some 0) → c = exampleConfig.quantityDefault)) := by
  have h := c2_error_status_blocks_success exampleConfig idleState errorResponseInput
    soldOutResponse rfl rfl rfl rfl rfl
  exact ⟨rfl, rfl, rfl, h.2.1, h.2.2.2 rfl⟩

/-- Counterexample to C2 as stated: with no `addToCartTextError`
element in the markup, a truthy-status response dispatches the
`CartErrorEvent` but returns before the `CartAddEvent` dispatch, so no
error-tagged add signal is emitted at all. -/
theorem c2_counterexample_no_error_element :
    errorResponseInput.fetchOutcome = some soldOutResponse ∧
    soldOutResponse.statusTruthy = true ∧
    (exampleConfigNoError.hasButtonContainer && idleState.buttonDisabled) = false ∧
    (handleSubmit exampleConfigNoError idleState errorResponseInput).2.events =
      [DispatchedEvent.cartError "f1" "Sold out" "desc" []] ∧
    ((handleSubmit exampleConfigNoError idleState errorResponseInput).2.events.all
      fun e => !isCartAddEvent e) = true :=
  ⟨rfl, rfl, rfl, rfl, rfl⟩

/-! ## C3: at most one pending error-hide timer -/

/-- A hide-free timer list has no error-hide timers after filtering. -/
theorem filter_hide_nil {l : List Timer}
    (h : ∀ t ∈ l, t.action ≠ TimerAction.hideError) :
    (l.filter fun t => t.action == TimerAction.hideError) = [] :=
  List.filter_eq_nil_iff.mpr (by intro a ha; simp [h a ha])

/-- A state with no pending error-hide timers counts zero of them. -/
theorem countHide_eq_zero {st : ProductFormState}
    (h : ∀ t ∈ st.activeTimers, t.action ≠ TimerAction.hideError) :
    countHide st = 0 := by
  simp [countHide, filter_hide_nil h]

/-- Clearing the pending `#timeout` preserves hide-freeness. -/
theorem clear_keeps_no_hide {st : ProductFormState}
    (h : ∀ t ∈ st.activeTimers, t.action ≠ TimerAction.hideError) :
    ∀ t ∈ (clearPendingTimeout st).activeTimers,
      t.action ≠ TimerAction.hideError :=
  fun t ht => h t (mem_clear_activeTimers ht)

/-- On a hide-free state, the cleared timer list filters to nothing. -/
theorem clear_filter_hide_nil (st : ProductFormState)
    (h : ∀ t ∈ st.activeTimers, t.action ≠ TimerAction.hideError) :
    List.filter (fun t => t.action == TimerAction.hideError)
      (clearPendingTimeout st).activeTimers = [] :=
  filter_hide_nil (clear_keeps_no_hide h)

/-- Hide-timer bookkeeping of the rejection branch, entered on a state
with no pending error-hide timer (as after the initial `clearTimeout`):
every pending error-hide timer of the result was scheduled by the branch
and is the one recorded in `#timeout`, and at most one is pending. -/
theorem rejectionBranch_hide (cfg : ProductFormConfig)
    (st : ProductFormState) (v : ValidationResult)
    (h0 : ∀ t ∈ st.activeTimers, t.action ≠ TimerAction.hideError) :
    (∀ t ∈ (rejectionBranch cfg st v).1.activeTimers,
       t.action = TimerAction.hideError →
       t ∈ (rejectionBranch cfg st v).2.scheduledTimers ∧
       (rejectionBranch cfg st v).1.timeoutField = some t.id) ∧
    countHide (rejectionBranch cfg st v).1 ≤ 1 := by
  cases hbc : cfg.hasButtonContainer <;> cases herr : cfg.hasErrorElement <;>
    simp only [rejectionBranch, hbc, herr, Bool.false_eq_true, if_false, if_true,
      ite_true, ite_false, scheduleTimer, noEffects] <;>
    constructor
  case false.false.left | true.false.left =>
    intro t ht hact
    rcases List.mem_append.mp ht with hL | hR
    · exact absurd hact (h0 t hL)
    · simp at hR
      rw [hR] at hact
      exact absurd hact (by simp)
  case false.false.right | true.false.right =>
    simp only [countHide, List.filter_append, List.length_append]
    rw [filter_hide_nil h0]
    simp
  case false.true.left | true.true.left =>
    intro t ht hact
    simp only [List.append_assoc, List.mem_append] at ht
    rcases ht with hL | hR
    · have hmem := mem_clear_activeTimers hL
      exact absurd hact (h0 t hmem)
    · simp at hR
      rcases hR with h1 | h2
      · rw [h1]
        exact ⟨by simp, by simp⟩
      · rw [h2] at hact
        exact absurd hact (by simp)
  case false.true.right =>
    have heq := clear_filter_hide_nil
      { st with errorHidden := false,
                errorTextNode := some (replaceFirst (cfg.quantityErrorMax.getD "")
                  "\x7b\x7b maximum \x7d\x7d" (toString v.maxQuantity)),
                liveRegionText := replaceFirst (cfg.quantityErrorMax.getD "")
                  "\x7b\x7b maximum \x7d\x7d" (toString v.maxQuantity) }
      (fun t ht => h0 t ht)
    simp only [countHide, List.filter_append, List.length_append]
    rw [heq]
    simp
  case true.true.right =>
    have heq := clear_filter_hide_nil
      { st with buttonDisabled := true, errorHidden := false,
                errorTextNode := some (replaceFirst (cfg.quantityErrorMax.getD "")
                  "\x7b\x7b maximum \x7d\x7d" (toString v.maxQuantity)),
                liveRegionText := replaceFirst (cfg.quantityErrorMax.getD "")
                  "\x7b\x7b maximum \x7d\x7d" (toString v.maxQuantity) }
      (fun t ht => h0 t ht)
    simp only [countHide, List.filter_append, List.length_append]
    rw [heq]
    simp

/-- Hide-timer bookkeeping of the network branch, entered on a state
with no pending error-hide timer: every pending error-hide timer of the
result was scheduled by the branch and is the one recorded in
`#timeout`, and at most one is pending. -/
theorem fetchBranch_hide (cfg : ProductFormConfig) (st : ProductFormState)
    (inp : SubmitInput)
    (h0 : ∀ t ∈ st.activeTimers, t.action ≠ TimerAction.hideError) :
    (∀ t ∈ (fetchBranch cfg st inp).1.activeTimers,
       t.action = TimerAction.hideError →
       t ∈ (fetchBranch cfg st inp).2.scheduledTimers ∧
       (fetchBranch cfg st inp).1.timeoutField = some t.id) ∧
    countHide (fetchBranch cfg st inp).1 ≤ 1 := by
  rcases hout : inp.fetchOutcome with _ | resp
  · have hnh : ∀ t ∈ (fetchBranch cfg st inp).1.activeTimers,
        t.action ≠ TimerAction.hideError := by
      intro t ht
      simp only [fetchBranch, hout] at ht
      exact h0 t ht
    exact ⟨fun t ht hact => absurd hact (hnh t ht),
      by simp [countHide_eq_zero hnh]⟩
  · cases hst : resp.statusTruthy
    · have hnh : ∀ t ∈ (fetchBranch cfg st inp).1.activeTimers,
          t.action ≠ TimerAction.hideError := by
        intro t ht
        cases herr : cfg.hasErrorElement <;>
          by_cases hid : (inp.formId.getD "") = "" <;>
            cases hbc : cfg.hasButtonContainer <;>
              simp [fetchBranch, hout, hst, herr, hid, hbc,
                scheduleTimer, noEffects] at ht <;>
              first
              | exact h0 t ht
              | (rcases ht with hL | hR
                 · exact h0 t hL
                 · rw [hR]
                   simp)
      exact ⟨fun t ht hact => absurd hact (hnh t ht),
        by simp [countHide_eq_zero hnh]⟩
    · have hred : fetchBranch cfg st inp =
          if cfg.hasErrorElement then
            ({ st with errorHidden := false,
                       errorTextNode := some resp.message,
                       liveRegionText := resp.message,
                       activeTimers := st.activeTimers ++
                         [⟨st.nextTimerId, ERROR_MESSAGE_DISPLAY_DURATION,
                           TimerAction.hideError⟩],
                       nextTimerId := st.nextTimerId + 1,
                       timeoutField := some st.nextTimerId },
             { noEffects with didFetch := true,
                              events := [DispatchedEvent.cartError
                                  (inp.formElementId.getD "") resp.message
                                  resp.description resp.errors,
                                DispatchedEvent.cartAdd true
                                  (itemCountOf cfg inp.formQuantity) none],
                              scheduledTimers :=
                                [⟨st.nextTimerId, ERROR_MESSAGE_DISPLAY_DURATION,
                                  TimerAction.hideError⟩] })
          else
            (st, { noEffects with didFetch := true,
                                  events := [DispatchedEvent.cartError
                                    (inp.formElementId.getD "") resp.message
                                    resp.description resp.errors] }) := by
        cases herr : cfg.hasErrorElement <;>
          simp [fetchBranch, hout, hst, herr, scheduleTimer, noEffects]
      rw [hred]
      cases herr : cfg.hasErrorElement <;> simp only [herr] <;>
        simp only [Bool.false_eq_true, if_true, if_false, ite_true, ite_false] <;>
        constructor
      · intro t ht hact
        exact absurd hact (h0 t ht)
      · simp [countHide, filter_hide_nil h0]
      · intro t ht hact
        simp only [List.mem_append] at ht
        rcases ht with hL | hR
        · exact absurd hact (h0 t hL)
        · simp at hR
          rw [hR]
          exact ⟨by simp, by simp⟩
      · simp only [countHide, List.filter_append, List.length_append]
        rw [filter_hide_nil h0]
        simp

/-- Hide-timer bookkeeping of a whole `handleSubmit` run from a state
whose pending error-hide timer (if any) is the one in `#timeout`:
the invariant is preserved, at most one error-hide timer is pending
afterwards, and any pending one was scheduled by this very run. -/
theorem handleSubmit_hide (cfg : ProductFormConfig) (st : ProductFormState)
    (inp : SubmitInput) (h : HideOK st) :
    HideOK (handleSubmit cfg st inp).1 ∧
    countHide (handleSubmit cfg st inp).1 ≤ 1 ∧
    (∀ t ∈ (handleSubmit cfg st inp).1.activeTimers,
       t.action = TimerAction.hideError →
       t ∈ (handleSubmit cfg st inp).2.scheduledTimers) := by
  have h0 := clear_no_hide h
  cases hdis : cfg.hasButtonContainer && st.buttonDisabled
  case true =>
    have hred : handleSubmit cfg st inp = (clearPendingTimeout st, noEffects) := by
      unfold handleSubmit
      simp [hdis]
    rw [hred]
    exact ⟨fun t ht hact => absurd hact (h0 t ht),
      by simp [countHide_eq_zero h0],
      fun t ht hact => absurd hact (h0 t ht)⟩
  case false =>
    cases hform : inp.formPresent
    case false =>
      have hred : handleSubmit cfg st inp =
          (clearPendingTimeout st,
           { noEffects with thrownSync := some "Product form element missing" }) := by
        unfold handleSubmit
        simp [hdis, hform]
      rw [hred]
      exact ⟨fun t ht hact => absurd hact (h0 t ht),
        by simp [countHide_eq_zero h0],
        fun t ht hact => absurd hact (h0 t ht)⟩
    case true =>
      rcases hval : inp.validation with _ | v
      · have hred : handleSubmit cfg st inp =
            fetchBranch cfg (clearPendingTimeout st) inp := by
          unfold handleSubmit
          simp [hdis, hform, hval]
        rw [hred]
        obtain ⟨ha, hb⟩ := fetchBranch_hide cfg (clearPendingTimeout st) inp h0
        exact ⟨fun t ht hact => (ha t ht hact).2, hb,
          fun t ht hact => (ha t ht hact).1⟩
      · cases hca : v.canAdd
        · have hred : handleSubmit cfg st inp =
              rejectionBranch cfg (clearPendingTimeout st) v := by
            unfold handleSubmit
            simp [hdis, hform, hval, hca]
          rw [hred]
          obtain ⟨ha, hb⟩ := rejectionBranch_hide cfg (clearPendingTimeout st) v h0
          exact ⟨fun t ht hact => (ha t ht hact).2, hb,
            fun t ht hact => (ha t ht hact).1⟩
        · have hred : handleSubmit cfg st inp =
              fetchBranch cfg (clearPendingTimeout st) inp := by
            unfold handleSubmit
            simp [hdis, hform, hval, hca]
          rw [hred]
          obtain ⟨ha, hb⟩ := fetchBranch_hide cfg (clearPendingTimeout st) inp h0
          exact ⟨fun t ht hact => (ha t ht hact).2, hb,
            fun t ht hact => (ha t ht hact).1⟩

/-- C3: every `handleSubmit` invocation clears the pending error-hide
timer before possibly scheduling a new one: from any state whose pending
error-hide timer is the one recorded in `#timeout`, after one
submission every pending error-hide timer was scheduled by that very
submission, and after any two successive submissions at most one
error-hide timer is pending — the one scheduled by the latest
submission that scheduled any. -/
theorem c3_error_hide_timer_never_stacks (cfg : ProductFormConfig)
    (st : ProductFormState) (inp1 inp2 : SubmitInput) (h : HideOK st) :
    (countHide (handleSubmit cfg st inp1).1 ≤ 1 ∧
     ∀ t ∈ (handleSubmit cfg st inp1).1.activeTimers,
       t.action = TimerAction.hideError →
       t ∈ (handleSubmit cfg st inp1).2.scheduledTimers) ∧
    (countHide (handleSubmit cfg (handleSubmit cfg st inp1).1 inp2).1 ≤ 1 ∧
     ∀ t ∈ (handleSubmit cfg (handleSubmit cfg st inp1).1 inp2).1.activeTimers,
       t.action = TimerAction.hideError →
       t ∈ (handleSubmit cfg (handleSubmit cfg st inp1).1 inp2).2.scheduledTimers) := by
  obtain ⟨h1ok, h1cnt, h1sub⟩ := handleSubmit_hide cfg st inp1 h
  obtain ⟨h2ok, h2cnt, h2sub⟩ :=
    handleSubmit_hide cfg (handleSubmit cfg st inp1).1 inp2 h1ok
  exact ⟨⟨h1cnt, h1sub⟩, ⟨h2cnt, h2sub⟩⟩

/-- Witness for C3: two concrete rejected submissions in a row. -/
theorem c3_error_hide_timer_witness :
    HideOK idleState ∧
    countHide (handleSubmit exampleConfig
      (handleSubmit exampleConfig idleState rejectInput).1 rejectInput).1 ≤ 1 := by
  have hok : HideOK idleState := by
    intro t ht
    simp [idleState] at ht
  exact ⟨hok,
    (c3_error_hide_timer_never_stacks exampleConfig idleState
      rejectInput rejectInput hok).2.1⟩

/-! ## C4: the rejection branch schedules two independent timers -/

/-- Firing either of two distinctly numbered pending timers removes
only itself and runs its own callback; the other stays pending. -/
theorem fireTimer_two (cfg : ProductFormConfig) (Y : ProductFormState)
    (L : List Timer) (t1 t2 : Timer)
    (hA : Y.activeTimers = L ++ [t1, t2])
    (h1 : ∀ u ∈ L, u.id ≠ t1.id) (h2 : ∀ u ∈ L, u.id ≠ t2.id)
    (h12 : t1.id ≠ t2.id) :
    fireTimer cfg Y t1.id =
      applyAction cfg { Y with activeTimers := L ++ [t2] } t1.action ∧
    fireTimer cfg Y t2.id =
      applyAction cfg { Y with activeTimers := L ++ [t1] } t2.action := by
  constructor
  · have hfind : (L ++ [t1, t2]).find? (fun u => u.id == t1.id) = some t1 := by
      rw [find_append_right (fun u hu => by simp [h1 u hu])]
      simp
    have hfilt : (L ++ [t1, t2]).filter (fun u => u.id ≠ t1.id) = L ++ [t2] := by
      rw [List.filter_append, List.filter_eq_self.mpr (fun u hu => by simp [h1 u hu])]
      simp [Ne.symm h12]
    unfold fireTimer
    rw [hA]
    simp only [hfind, hfilt]
  · have hfind : (L ++ [t1, t2]).find? (fun u => u.id == t2.id) = some t2 := by
      rw [find_append_right (fun u hu => by simp [h2 u hu])]
      simp [h12]
    have hfilt : (L ++ [t1, t2]).filter (fun u => u.id ≠ t2.id) = L ++ [t1] := by
      rw [List.filter_append, List.filter_eq_self.mpr (fun u hu => by simp [h2 u hu])]
      simp [h12]
    unfold fireTimer
    rw [hA]
    simp only [hfind, hfilt]

/-- C4: a validation-rejected submission disables the add-to-cart
control and schedules exactly two timers — a 10000 ms error-hide timer
and a 1000 ms button re-enable timer. Firing either leaves the other
pending: the hide timer hides the error and clears the live region
without re-enabling anything, and the re-enable timer re-enables the
button without touching the error. -/
theorem c4_rejection_schedules_two_timers (cfg : ProductFormConfig)
    (st : ProductFormState) (inp : SubmitInput) (v : ValidationResult)
    (hbc : cfg.hasButtonContainer = true)
    (hdis : st.buttonDisabled = false)
    (hform : inp.formPresent = true)
    (hval : inp.validation = some v)
    (hrej : v.canAdd = false)
    (herr : cfg.hasErrorElement = true)
    (hfresh : IdsFresh st) :
    ∃ t1 t2 : Timer,
      (handleSubmit cfg st inp).2.scheduledTimers = [t1, t2] ∧
      t1.action = TimerAction.hideError ∧
      t1.delay = ERROR_MESSAGE_DISPLAY_DURATION ∧
      t2.action = TimerAction.reenableButton ∧
      t2.delay = ERROR_BUTTON_REENABLE_DELAY ∧
      t1.id ≠ t2.id ∧
      t1 ∈ (handleSubmit cfg st inp).1.activeTimers ∧
      t2 ∈ (handleSubmit cfg st inp).1.activeTimers ∧
      (handleSubmit cfg st inp).1.buttonDisabled = true ∧
      (fireTimer cfg (handleSubmit cfg st inp).1 t1.id).errorHidden = true ∧
      (fireTimer cfg (handleSubmit cfg st inp).1 t1.id).liveRegionText = "" ∧
      (fireTimer cfg (handleSubmit cfg st inp).1 t1.id).buttonDisabled = true ∧
      t2 ∈ (fireTimer cfg (handleSubmit cfg st inp).1 t1.id).activeTimers ∧
      (fireTimer cfg (handleSubmit cfg st inp).1 t2.id).buttonDisabled = false ∧
      (fireTimer cfg (handleSubmit cfg st inp).1 t2.id).errorHidden =
        (handleSubmit cfg st inp).1.errorHidden ∧
      t1 ∈ (fireTimer cfg (handleSubmit cfg st inp).1 t2.id).activeTimers := by
  have hr := handleSubmit_eq_rejection cfg st inp v (by simp [hbc, hdis]) hform hval hrej
  have hEx : ∃ L, (rejectionBranch cfg (clearPendingTimeout st) v).1.activeTimers =
      L ++ [⟨st.nextTimerId, ERROR_MESSAGE_DISPLAY_DURATION, TimerAction.hideError⟩,
            ⟨st.nextTimerId + 1, ERROR_BUTTON_REENABLE_DELAY, TimerAction.reenableButton⟩] ∧
      ∀ u ∈ L, u.id < st.nextTimerId := by
    refine ⟨(clearPendingTimeout
      { clearPendingTimeout st with
          buttonDisabled := true, errorHidden := false,
          errorTextNode := some (replaceFirst (cfg.quantityErrorMax.getD "")
            "\x7b\x7b maximum \x7d\x7d" (toString v.maxQuantity)),
          liveRegionText := replaceFirst (cfg.quantityErrorMax.getD "")
            "\x7b\x7b maximum \x7d\x7d" (toString v.maxQuantity) }).activeTimers, ?_, ?_⟩
    · simp [rejectionBranch, hbc, herr, scheduleTimer, noEffects, List.append_assoc]
    · intro u hu
      have hu1 := mem_clear_activeTimers hu
      have hu2 := mem_clear_activeTimers hu1
      exact hfresh u hu2
  obtain ⟨L, hA, hLid⟩ := hEx
  have h1 : ∀ u ∈ L,
      u.id ≠ (⟨st.nextTimerId, ERROR_MESSAGE_DISPLAY_DURATION,
        TimerAction.hideError⟩ : Timer).id :=
    fun u hu => Nat.ne_of_lt (hLid u hu)
  have h2 : ∀ u ∈ L,
      u.id ≠ (⟨st.nextTimerId + 1, ERROR_BUTTON_REENABLE_DELAY,
        TimerAction.reenableButton⟩ : Timer).id :=
    fun u hu => Nat.ne_of_lt (Nat.lt_succ_of_lt (hLid u hu))
  have hft := fireTimer_two cfg (rejectionBranch cfg (clearPendingTimeout st) v).1 L
    ⟨st.nextTimerId, ERROR_MESSAGE_DISPLAY_DURATION, TimerAction.hideError⟩
    ⟨st.nextTimerId + 1, ERROR_BUTTON_REENABLE_DELAY, TimerAction.reenableButton⟩
    hA h1 h2 (by simp)
  rw [hr]
  refine ⟨⟨st.nextTimerId, ERROR_MESSAGE_DISPLAY_DURATION, TimerAction.hideError⟩,
    ⟨st.nextTimerId + 1, ERROR_BUTTON_REENABLE_DELAY, TimerAction.reenableButton⟩,
    ?_, rfl, rfl, rfl, rfl, by simp, ?_, ?_, ?_, ?_, ?_, ?_, ?_, ?_, ?_, ?_⟩
  · simp [rejectionBranch, hbc, herr, scheduleTimer, noEffects]
  · rw [hA]
    simp
  · rw [hA]
    simp
  · simp [rejectionBranch, hbc, herr, scheduleTimer, noEffects]
  · rw [hft.1]
    simp [applyAction, herr]
  · rw [hft.1]
    simp [applyAction, herr]
  · rw [hft.1]
    simp [applyAction, herr, rejectionBranch, hbc, scheduleTimer, noEffects]
  · rw [hft.1]
    simp [applyAction, herr]
  · rw [hft.2]
    simp [applyAction, hbc]
  · rw [hft.2]
    simp [applyAction, hbc]
  · rw [hft.2]
    simp [applyAction, hbc]

/-- Witness for C4 at a concrete rejected submission. -/
theorem c4_rejection_two_timers_witness :
    exampleConfig.hasButtonContainer = true ∧
    idleState.buttonDisabled = false ∧
    rejectInput.formPresent = true ∧
    rejectInput.validation = some ⟨false, 3⟩ ∧
    exampleConfig.hasErrorElement = true ∧
    IdsFresh idleState ∧
    ∃ t1 t2 : Timer,
      (handleSubmit exampleConfig idleState rejectInput).2.scheduledTimers = [t1, t2] ∧
      t1.action = TimerAction.hideError ∧
      t1.delay = ERROR_MESSAGE_DISPLAY_DURATION ∧
      t2.action = TimerAction.reenableButton ∧
      t2.delay = ERROR_BUTTON_REENABLE_DELAY := by
  have hfresh : IdsFresh idleState := by
    intro t ht
    simp [idleState] at ht
  obtain ⟨t1, t2, hsch, ha1, hd1, ha2, hd2, -⟩ :=
    c4_rejection_schedules_two_timers exampleConfig idleState rejectInput
      ⟨false, 3⟩ rfl rfl rfl rfl rfl rfl hfresh
  exact ⟨rfl, rfl, rfl, rfl, rfl, hfresh, t1, t2, hsch, ha1, hd1, ha2, hd2⟩

/-! ## C7: the add-to-cart click animation -/

/-- `clearTimeout` does not touch the button class. -/
@[simp]
theorem atcClear_hasAtcClass (st : AtcState) (tid : Option Nat) :
    (atcClear st tid).hasAtcClass = st.hasAtcClass := by
  cases tid <;> simp [atcClear]

/-- `clearTimeout` does not consume timer ids. -/
@[simp]
theorem atcClear_nextId (st : AtcState) (tid : Option Nat) :
    (atcClear st tid).nextId = st.nextId := by
  cases tid <;> simp [atcClear]

/-- `clearTimeout` does not touch the `#animationTimeout` field. -/
@[simp]
theorem atcClear_animationTimeout (st : AtcState) (tid : Option Nat) :
    (atcClear st tid).animationTimeout = st.animationTimeout := by
  cases tid <;> simp [atcClear]

/-- `clearTimeout` does not touch the `#cleanupTimeout` field. -/
@[simp]
theorem atcClear_cleanupTimeout (st : AtcState) (tid : Option Nat) :
    (atcClear st tid).cleanupTimeout = st.cleanupTimeout := by
  cases tid <;> simp [atcClear]

/-- A timer still pending after `clearTimeout` was pending before. -/
theorem mem_atcClear {st : AtcState} {tid : Option Nat} {t : AtcTimer}
    (h : t ∈ (atcClear st tid).timers) : t ∈ st.timers := by
  cases tid with
  | none => simpa [atcClear] using h
  | some i =>
      simp [atcClear, List.mem_filter] at h
      exact h.1

/-- Firing the last pending `AddToCartComponent` timer, whose id is
fresh over the rest: the outer callback schedules the 10 ms cleanup
timer, the cleanup callback removes the class. -/
theorem fireAtc_on_last (st : AtcState) (F : List AtcTimer) (t : AtcTimer)
    (now2 : Nat) (hA : st.timers = F ++ [t]) (hF : ∀ u ∈ F, u.id ≠ t.id) :
    fireAtcTimer st t.id now2 =
      (match t.action with
       | AtcAction.atcOuter =>
           { st with timers := F ++ [⟨st.nextId, now2 + 10, AtcAction.atcCleanup⟩],
                     nextId := st.nextId + 1,
                     cleanupTimeout := some st.nextId }
       | AtcAction.atcCleanup =>
           { st with timers := F, hasAtcClass := false }) := by
  have hfind : (F ++ [t]).find? (fun u => u.id == t.id) = some t := by
    rw [find_append_right (fun u hu => by simp [hF u hu])]
    simp
  have hfilt : (F ++ [t]).filter (fun u => u.id ≠ t.id) = F := by
    rw [List.filter_append, List.filter_eq_self.mpr (fun u hu => by simp [hF u hu])]
    simp
  unfold fireAtcTimer
  rw [hA]
  simp only [hfind, hfilt]

/-- Counterexample to C7 as stated: after a valid click at time 0, the
only timer scheduled by the click fires at 2000 ms, and firing it does
NOT remove the `atc-added` class — it only schedules a nested 10 ms
cleanup timer; the class disappears when that one fires at 2010 ms, not
"exactly 2000 ms later". -/
theorem c7_counterexample_removal_at_2010 :
    clickValid validClick = true ∧
    (handleClick 0 atcInitial validClick).1.hasAtcClass = true ∧
    ((handleClick 0 atcInitial validClick).1.timers.map AtcTimer.fireAt) = [2000] ∧
    (fireAtcTimer (handleClick 0 atcInitial validClick).1 0 2000).hasAtcClass = true ∧
    ((fireAtcTimer (handleClick 0 atcInitial validClick).1 0 2000).timers.map
      AtcTimer.fireAt) = [2010] ∧
    (fireAtcTimer (fireAtcTimer (handleClick 0 atcInitial validClick).1 0 2000)
      1 2010).hasAtcClass = false :=
  ⟨rfl, rfl, rfl, rfl, rfl, rfl⟩

/-- C7 (amended): an invalid click (invalid form, or rejecting quantity
validation) is a strict no-op; a valid click applies the `atc-added`
class and schedules a 2000 ms animation timer whose firing leaves the
class in place and schedules a 10 ms cleanup timer, so the class is
removed 2010 ms after the click; the fly-to-cart effect spawns exactly
when the animation data-flag is `'true'`, the click is outside any
quick-add modal, and the effect's prerequisites exist. -/
theorem c7_click_animation (now : Nat) (st : AtcState) (inp : ClickInput)
    (hfresh : AtcIdsFresh st) :
    (clickValid inp = false → handleClick now st inp = (st, ⟨false⟩)) ∧
    (clickValid inp = true →
      (handleClick now st inp).1.hasAtcClass = true ∧
      (handleClick now st inp).2.flySpawned =
        ((inp.addToCartAnimation == some "true") && !inp.insideQuickAddModal &&
          inp.flyPrereqs) ∧
      ∃ t ∈ (handleClick now st inp).1.timers,
        t.action = AtcAction.atcOuter ∧
        t.fireAt = now + ADD_TO_CART_TEXT_ANIMATION_DURATION ∧
        (handleClick now st inp).1.animationTimeout = some t.id ∧
        (fireAtcTimer (handleClick now st inp).1 t.id
          (now + ADD_TO_CART_TEXT_ANIMATION_DURATION)).hasAtcClass = true ∧
        ∃ c ∈ (fireAtcTimer (handleClick now st inp).1 t.id
            (now + ADD_TO_CART_TEXT_ANIMATION_DURATION)).timers,
          c.action = AtcAction.atcCleanup ∧
          c.fireAt = now + ADD_TO_CART_TEXT_ANIMATION_DURATION + 10 ∧
          (fireAtcTimer (fireAtcTimer (handleClick now st inp).1 t.id
              (now + ADD_TO_CART_TEXT_ANIMATION_DURATION)) c.id
            (now + ADD_TO_CART_TEXT_ANIMATION_DURATION + 10)).hasAtcClass = false) := by
  constructor
  · intro hv
    rcases hfv : inp.formValid
    · unfold handleClick
      simp [hfv]
    · rcases hvalc : inp.validation with _ | v
      · simp [clickValid, hfv, hvalc] at hv
      · have hca : v.canAdd = false := by
          simpa [clickValid, hfv, hvalc] using hv
        unfold handleClick
        simp [hfv, hvalc, hca]
  · intro hv
    have hfv : inp.formValid = true := by
      rcases hfv : inp.formValid
      · rw [clickValid, hfv] at hv
        simp at hv
      · rfl
    have hred : handleClick now st inp =
        (animateAddToCart now st,
         ⟨(inp.addToCartAnimation == some "true") && !inp.insideQuickAddModal &&
           inp.flyPrereqs⟩) := by
      rcases hvalc : inp.validation with _ | v
      · unfold handleClick
        simp [hfv, hvalc]
      · have hca : v.canAdd = true := by
          simpa [clickValid, hfv, hvalc] using hv
        unfold handleClick
        simp [hfv, hvalc, hca]
    rw [hred]
    have hclass : (animateAddToCart now st).hasAtcClass = true := by
      cases hcl : st.hasAtcClass <;> simp [animateAddToCart, hcl]
    have hanim : (animateAddToCart now st).animationTimeout = some st.nextId := by
      cases hcl : st.hasAtcClass <;> simp [animateAddToCart, hcl]
    have hnid : (animateAddToCart now st).nextId = st.nextId + 1 := by
      cases hcl : st.hasAtcClass <;> simp [animateAddToCart, hcl]
    have hEx : ∃ F, (animateAddToCart now st).timers =
        F ++ [⟨st.nextId, now + ADD_TO_CART_TEXT_ANIMATION_DURATION,
          AtcAction.atcOuter⟩] ∧
        ∀ u ∈ F, u.id < st.nextId := by
      refine ⟨(atcClear (atcClear st st.animationTimeout) st.cleanupTimeout).timers,
        ?_, ?_⟩
      · cases hcl : st.hasAtcClass <;> simp [animateAddToCart, hcl]
      · intro u hu
        have hu1 := mem_atcClear hu
        have hu2 := mem_atcClear hu1
        exact hfresh u hu2
    obtain ⟨F, hA, hFid⟩ := hEx
    have hF1 : ∀ u ∈ F,
        u.id ≠ (⟨st.nextId, now + ADD_TO_CART_TEXT_ANIMATION_DURATION,
          AtcAction.atcOuter⟩ : AtcTimer).id :=
      fun u hu => Nat.ne_of_lt (hFid u hu)
    have hf1 := fireAtc_on_last (animateAddToCart now st) F
      ⟨st.nextId, now + ADD_TO_CART_TEXT_ANIMATION_DURATION, AtcAction.atcOuter⟩
      (now + ADD_TO_CART_TEXT_ANIMATION_DURATION) hA hF1
    refine ⟨hclass, rfl,
      ⟨st.nextId, now + ADD_TO_CART_TEXT_ANIMATION_DURATION, AtcAction.atcOuter⟩,
      by rw [hA]; simp, rfl, rfl, hanim, ?_, ?_⟩
    · rw [hf1]
      simpa using hclass
    · rw [hf1]
      simp only []
      have hF2 : ∀ u ∈ F,
          u.id ≠ (⟨(animateAddToCart now st).nextId,
            now + ADD_TO_CART_TEXT_ANIMATION_DURATION + 10,
            AtcAction.atcCleanup⟩ : AtcTimer).id := by
        intro u hu
        rw [hnid]
        exact Nat.ne_of_lt (Nat.lt_succ_of_lt (hFid u hu))
      have hf2 := fireAtc_on_last
        { animateAddToCart now st with
            timers := F ++ [⟨(animateAddToCart now st).nextId,
              now + ADD_TO_CART_TEXT_ANIMATION_DURATION + 10, AtcAction.atcCleanup⟩],
            nextId := (animateAddToCart now st).nextId + 1,
            cleanupTimeout := some (animateAddToCart now st).nextId }
        F
        ⟨(animateAddToCart now st).nextId,
          now + ADD_TO_CART_TEXT_ANIMATION_DURATION + 10, AtcAction.atcCleanup⟩
        (now + ADD_TO_CART_TEXT_ANIMATION_DURATION + 10) rfl hF2
      refine ⟨⟨(animateAddToCart now st).nextId,
        now + ADD_TO_CART_TEXT_ANIMATION_DURATION + 10, AtcAction.atcCleanup⟩,
        by simp, rfl, rfl, ?_⟩
      rw [hf2]

/-- Witness for C7 at a concrete valid click and a concrete invalid
click. -/
theorem c7_click_animation_witness :
    AtcIdsFresh atcInitial ∧
    clickValid validClick = true ∧
    (handleClick 5 atcInitial validClick).1.hasAtcClass = true ∧
    handleClick 5 atcInitial ⟨false, none, none, false, false⟩ =
      (atcInitial, ⟨false⟩) := by
  have hfresh : AtcIdsFresh atcInitial := by
    intro t ht
    simp [atcInitial] at ht
  have hvalid := (c7_click_animation 5 atcInitial validClick hfresh).2 rfl
  have hinvalid := (c7_click_animation 5 atcInitial
    ⟨false, none, none, false, false⟩ hfresh).1 rfl
  exact ⟨hfresh, rfl, hvalid.1, hinvalid⟩

end PF
